import Mathlib

/-!
Verification of the GMSH 2.x ASCII mesh reader (gmsh_interop/reader.py).

The development shallowly embeds the reader: the element-shape catalog with
its literal gmsh node-ordering tables, the lazily derived lexicographic
orderings and reorder permutations, and the section-driven streaming parser
`parse_gmsh` together with the receiver-call trace it produces.

Python built-ins that the reader relies on (`str.strip`, `str.split`,
`int(...)`, `float(...)`, list slicing) are modelled explicitly below; a
failing conversion is modelled as a distinguished error value (Python's
`ValueError` / `KeyError` / `IndexError`), kept separate from the reader's
own `GmshFileFormatError` conditions.
-/

set_option maxHeartbeats 4000000
set_option maxRecDepth 4000

namespace GmshInterop

/- ## Python built-in string and number helpers -/

/-- Models Python `str.strip()` (used by `LineFeeder.get_next_line`,
reader.py:135,142): remove leading and trailing whitespace. -/
def pyStrip (s : String) : String :=
  String.mk (((s.toList.dropWhile Char.isWhitespace).reverse.dropWhile
      Char.isWhitespace).reverse)

/-- Models Python `line.startswith("$")` (reader.py:661). -/
def pyStartsWithDollar (s : String) : Bool :=
  match s.toList with
  | '$' :: _ => true
  | _ => false

/-- Models the Python string slice `line[1:]` (reader.py:665). -/
def pyStrDrop1 (s : String) : String :=
  String.mk (s.toList.drop 1)

/-- Helper for `pySplit`: accumulate the current field (in reverse). -/
def splitWsAux : List Char → List Char → List String
  | [], acc => if acc.isEmpty then [] else [ String.mk acc.reverse ]
  | c :: cs, acc =>
    if c.isWhitespace then
      (if acc.isEmpty then [] else [ String.mk acc.reverse ]) ++ splitWsAux cs []
    else
      splitWsAux cs (c :: acc)

/-- Models Python `s.split()` with no argument: split on runs of whitespace,
discarding empty fields (used for MeshFormat, Nodes and Elements lines). -/
def pySplit (s : String) : List String :=
  splitWsAux s.toList []

/-- Split a character list at the first literal space, if any. -/
def splitFirstSpace : List Char → Option (List Char × List Char)
  | [] => none
  | c :: cs =>
    if c = ' ' then some ([], cs)
    else (splitFirstSpace cs).map (fun p => (c :: p.1, p.2))

/-- Models Python `s.split(" ", 2)` (reader.py:793): split on the first two
literal spaces, keeping empty fields, the remainder staying whole. -/
def pySplitSpace2 (s : String) : List String :=
  match splitFirstSpace s.toList with
  | none => [s]
  | some (a, r1) =>
    match splitFirstSpace r1 with
    | none => [ String.mk a, String.mk r1 ]
    | some (b, r2) => [ String.mk a, String.mk b, String.mk r2 ]

/-- Decimal digits folded into a natural number. -/
def digitsToNat (l : List Char) : Nat :=
  l.foldl (fun a c => a * 10 + (c.toNat - 48)) 0

/-- Models Python `int(s)` on decimal literals: optional surrounding
whitespace, an optional sign, then one or more digits; `none` models the
`ValueError` raised otherwise. (Python's underscore digit grouping is not
modelled; no input in the claims uses it.) -/
def pyInt? (s : String) : Option Int :=
  let t := (pyStrip s).toList
  let signBody : Int × List Char :=
    match t with
    | '-' :: r => (-1, r)
    | '+' :: r => (1, r)
    | r => (1, r)
  if signBody.2 ≠ [] ∧ signBody.2.all Char.isDigit then
    some (signBody.1 * (digitsToNat signBody.2 : Int))
  else
    none

/-- Models Python `float(s)` on finite decimal literals (optional sign,
integer and/or fractional digits, optional exponent); the value is kept as
an exact rational, since no reader behaviour depends on IEEE-754 rounding.
`none` models the `ValueError` raised on non-numeric input. -/
def pyFloat? (s : String) : Option Rat :=
  let t := (pyStrip s).toList
  let signBody : Int × List Char :=
    match t with
    | '-' :: r => (-1, r)
    | '+' :: r => (1, r)
    | r => (1, r)
  let body := signBody.2
  let ip := body.takeWhile Char.isDigit
  let r1 := body.dropWhile Char.isDigit
  let fpr2 : List Char × List Char :=
    match r1 with
    | '.' :: r => (r.takeWhile Char.isDigit, r.dropWhile Char.isDigit)
    | _ => ([], r1)
  let fp := fpr2.1
  let r2 := fpr2.2
  if ip = [] ∧ fp = [] then none
  else
    let mant : Rat := mkRat (signBody.1 * (digitsToNat (ip ++ fp) : Int)) (10 ^ fp.length)
    match r2 with
    | [] => some mant
    | c :: r3 =>
      if c = 'e' ∨ c = 'E' then
        let esBody : Int × List Char :=
          match r3 with
          | '-' :: rr => (-1, rr)
          | '+' :: rr => (1, rr)
          | rr => (1, rr)
        if esBody.2 ≠ [] ∧ esBody.2.all Char.isDigit then
          if esBody.1 ≥ 0 then some (mant * ((10 : Rat) ^ digitsToNat esBody.2))
          else some (mant / ((10 : Rat) ^ digitsToNat esBody.2))
        else none
      else none

/-- Models the Python list slice `xs[i:j]` (step 1) with Python's clamping
and negative-index convention. -/
def pySlice {α : Type} (xs : List α) (i j : Int) : List α :=
  let n : Int := xs.length
  let lo := (if i < 0 then max (n + i) 0 else min i n).toNat
  let hi := (if j < 0 then max (n + j) 0 else min j n).toNat
  (xs.take hi).drop lo

/-- Models the Python list slice `xs[i:]`. -/
def pySliceFrom {α : Type} (xs : List α) (i : Int) : List α :=
  let n : Int := xs.length
  let lo := (if i < 0 then max (n + i) 0 else min i n).toNat
  xs.drop lo

/- ## Element shape catalog (reader.py:147-501)

The Python classes form a closed set of (family, order) pairs; the shallow
embedding replaces the class hierarchy by a `family` tag carried next to the
order, exactly as suggested by the inheritance structure. -/

inductive GmshElementFamily : Type
  | point
  | interval
  | triangular
  | incompleteTriangular
  | tetrahedral
  | quadrilateral
  | hexahedral
deriving DecidableEq, Repr

/-- One element shape: a family (the Python class) and a polynomial order. -/
structure GmshElement : Type where
  family : GmshElementFamily
  order : Nat
deriving DecidableEq, Repr

/-- The `dimensions` class attribute of each Python element class. -/
def dimensions (e : GmshElement) : Nat :=
  match e.family with
  | .point => 0
  | .interval => 1
  | .triangular => 2
  | .incompleteTriangular => 2
  | .quadrilateral => 2
  | .tetrahedral => 3
  | .hexahedral => 3

/-- Whether the shape belongs to the simplex branch of the class hierarchy
(`GmshSimplexElementBase`) rather than `GmshTensorProductElementBase`. -/
def isSimplex (e : GmshElement) : Bool :=
  match e.family with
  | .quadrilateral => false
  | .hexahedral => false
  | _ => true

/-- `vertex_count` (reader.py:167-168, 309-310): `dimensions + 1` for
simplices, `2 ** dimensions` for tensor-product shapes. -/
def vertex_count (e : GmshElement) : Nat :=
  if isSimplex e then dimensions e + 1 else 2 ^ dimensions e

/-- `node_count` (reader.py:171-177, 312-314): the simplex closed form
`prod(order + 1 + i for i in range(d)) / d!` (an exact division) and the
tensor-product form `(order + 1) ** d`. -/
def node_count (e : GmshElement) : Nat :=
  if isSimplex e then
    ((List.range (dimensions e)).foldl (fun a i => a * (e.order + 1 + i)) 1) /
      Nat.factorial (dimensions e)
  else
    (e.order + 1) ^ dimensions e

/-- reader.py:87-90. -/
def generate_triangle_vertex_tuples (order : Nat) : List (List Nat) :=
  [ [0, 0], [order, 0], [0, order] ]

/-- reader.py:93-99: edge tuples, `i` ranging over `range(1, order)`. -/
def generate_triangle_edge_tuples (order : Nat) : List (List Nat) :=
  ((List.range' 1 (order - 1)).map fun i => [i, 0]) ++
  ((List.range' 1 (order - 1)).map fun i => [order - i, i]) ++
  ((List.range' 1 (order - 1)).map fun i => [0, order - i])

/-- pytools `generate_nonnegative_integer_tuples_summing_to_at_most n length`
as called at reader.py:186-190: for each last coordinate `i` in `0..n`, all
shorter tuples summing to at most `n - i`, the new coordinate appended last. -/
def gnitstam : Nat → Nat → List (List Nat)
  | _, 0 => [ [] ]
  | n, d + 1 =>
    (List.range (n + 1)).flatMap fun i =>
      (gnitstam (n - i) d).map (fun remainder => remainder ++ [i])

/-- pytools `generate_nonnegative_integer_tuples_below n length` as called at
reader.py:323-327: all tuples with coordinates in `0..n-1`, first coordinate
varying slowest. -/
def gnitb : Nat → Nat → List (List Nat)
  | _, 0 => [ [] ]
  | n, d + 1 =>
    (List.range n).flatMap fun i =>
      (gnitb n d).map (fun base => i :: base)

/-- `gmsh_node_tuples` of every catalog shape: the format-mandated file
node order.  Generated forms follow reader.py:209-236 (point, interval,
incomplete triangle); the literal tables are transcribed from
reader.py:242-264 (triangle), 270-301 (tetrahedron), 346-370 (quadrilateral)
and 376-453 (hexahedron).  Orders absent from a literal table raise
`KeyError` in Python and never occur in the catalog; they are mapped to `[]`
here. -/
def gmsh_node_tuples (e : GmshElement) : List (List Nat) :=
  match e.family, e.order with
  | .point, _ => [ [] ]
  | .interval, o => [ [0], [o] ] ++ (List.range' 1 (o - 1)).map (fun i => [i])
  | .incompleteTriangular, o =>
    generate_triangle_vertex_tuples o ++ generate_triangle_edge_tuples o
  | .triangular, 1 => [ [0, 0], [1, 0], [0, 1] ]
  | .triangular, 2 => [ [0, 0], [2, 0], [0, 2], [1, 0], [1, 1], [0, 1] ]
  | .triangular, 3 =>
    [ [0, 0], [3, 0], [0, 3], [1, 0], [2, 0], [2, 1], [1, 2], [0, 2],
      [0, 1], [1, 1] ]
  | .triangular, 4 =>
    [ [0, 0], [4, 0], [0, 4], [1, 0], [2, 0], [3, 0], [3, 1], [2, 2],
      [1, 3], [0, 3], [0, 2], [0, 1], [1, 1], [2, 1], [1, 2] ]
  | .triangular, 5 =>
    [ [0, 0], [5, 0], [0, 5], [1, 0], [2, 0], [3, 0], [4, 0], [4, 1],
      [3, 2], [2, 3], [1, 4], [0, 4], [0, 3], [0, 2], [0, 1], [1, 1],
      [3, 1], [1, 3], [2, 1], [2, 2], [1, 2] ]
  | .tetrahedral, 1 => [ [0, 0, 0], [1, 0, 0], [0, 1, 0], [0, 0, 1] ]
  | .tetrahedral, 2 =>
    [ [0, 0, 0], [2, 0, 0], [0, 2, 0], [0, 0, 2], [1, 0, 0], [1, 1, 0],
      [0, 1, 0], [0, 0, 1], [0, 1, 1], [1, 0, 1] ]
  | .tetrahedral, 3 =>
    [ [0, 0, 0], [3, 0, 0], [0, 3, 0], [0, 0, 3], [1, 0, 0], [2, 0, 0],
      [2, 1, 0], [1, 2, 0], [0, 2, 0], [0, 1, 0], [0, 0, 2], [0, 0, 1],
      [0, 1, 2], [0, 2, 1], [1, 0, 2], [2, 0, 1], [1, 1, 0], [1, 0, 1],
      [0, 1, 1], [1, 1, 1] ]
  | .tetrahedral, 4 =>
    [ [0, 0, 0], [4, 0, 0], [0, 4, 0], [0, 0, 4], [1, 0, 0], [2, 0, 0],
      [3, 0, 0], [3, 1, 0], [2, 2, 0], [1, 3, 0], [0, 3, 0], [0, 2, 0],
      [0, 1, 0], [0, 0, 3], [0, 0, 2], [0, 0, 1], [0, 1, 3], [0, 2, 2],
      [0, 3, 1], [1, 0, 3], [2, 0, 2], [3, 0, 1], [1, 1, 0], [1, 2, 0],
      [2, 1, 0], [1, 0, 1], [2, 0, 1], [1, 0, 2], [0, 1, 1], [0, 1, 2],
      [0, 2, 1], [1, 1, 2], [2, 1, 1], [1, 2, 1], [1, 1, 1] ]
  | .tetrahedral, 5 =>
    [ [0, 0, 0], [5, 0, 0], [0, 5, 0], [0, 0, 5], [1, 0, 0], [2, 0, 0],
      [3, 0, 0], [4, 0, 0], [4, 1, 0], [3, 2, 0], [2, 3, 0], [1, 4, 0],
      [0, 4, 0], [0, 3, 0], [0, 2, 0], [0, 1, 0], [0, 0, 4], [0, 0, 3],
      [0, 0, 2], [0, 0, 1], [0, 1, 4], [0, 2, 3], [0, 3, 2], [0, 4, 1],
      [1, 0, 4], [2, 0, 3], [3, 0, 2], [4, 0, 1], [1, 1, 0], [1, 3, 0],
      [3, 1, 0], [1, 2, 0], [2, 2, 0], [2, 1, 0], [1, 0, 1], [3, 0, 1],
      [1, 0, 3], [2, 0, 1], [2, 0, 2], [1, 0, 2], [0, 1, 1], [0, 1, 3],
      [0, 3, 1], [0, 1, 2], [0, 2, 2], [0, 2, 1], [1, 1, 3], [3, 1, 1],
      [1, 3, 1], [2, 1, 2], [2, 2, 1], [1, 2, 2], [1, 1, 1], [2, 1, 1],
      [1, 2, 1], [1, 1, 2] ]
  | .quadrilateral, 1 => [ [0, 0], [0, 1], [1, 1], [1, 0] ]
  | .quadrilateral, 2 =>
    [ [0, 0], [0, 2], [2, 2], [2, 0],
      [1, 0], [2, 1], [1, 2], [0, 1],
      [1, 1] ]
  | .quadrilateral, 3 =>
    [ [0, 0], [0, 3], [3, 3], [3, 0],
      [1, 0], [2, 0],
      [3, 1], [3, 2],
      [1, 3], [2, 3],
      [0, 1], [0, 2],
      [1, 1], [2, 1],
      [1, 2], [2, 2] ]
  | .hexahedral, 1 =>
    [ [0, 0, 0], [0, 1, 0], [1, 1, 0], [1, 0, 0],
      [0, 0, 1], [0, 1, 1], [1, 1, 1], [1, 0, 1] ]
  | .hexahedral, 2 =>
    [ [0, 0, 0], [0, 0, 2], [2, 0, 2], [2, 0, 0],
      [0, 2, 0], [0, 2, 2], [2, 2, 2], [2, 2, 0],
      [0, 0, 1], [1, 0, 0], [0, 1, 0], [1, 0, 2],
      [0, 1, 2], [2, 0, 1], [2, 1, 2], [2, 1, 0],
      [0, 2, 1], [1, 2, 0], [1, 2, 2], [2, 2, 1],
      [1, 0, 1], [0, 1, 1], [1, 1, 0], [1, 1, 2],
      [2, 1, 1], [1, 2, 1], [1, 1, 1] ]
  | .hexahedral, 3 =>
    [ [0, 3, 3], [3, 3, 3], [3, 0, 3], [0, 0, 3],
      [0, 3, 0], [3, 3, 0], [3, 0, 0], [0, 0, 0],
      [1, 3, 3], [2, 3, 3], [0, 2, 3], [0, 1, 3],
      [0, 3, 2], [0, 3, 1], [3, 2, 3], [3, 1, 3],
      [3, 3, 2], [3, 3, 1], [2, 0, 3], [1, 0, 3],
      [3, 0, 2], [3, 0, 1], [0, 0, 2], [0, 0, 1],
      [1, 3, 0], [2, 3, 0], [0, 2, 0], [0, 1, 0],
      [3, 2, 0], [3, 1, 0], [2, 0, 0], [1, 0, 0],
      [1, 2, 3], [1, 1, 3], [2, 1, 3], [2, 2, 3],
      [1, 3, 2], [2, 3, 2], [2, 3, 1], [1, 3, 1],
      [0, 2, 2], [0, 2, 1], [0, 1, 1], [0, 1, 2],
      [3, 2, 2], [3, 1, 2], [3, 1, 1], [3, 2, 1],
      [2, 0, 2], [1, 0, 2], [1, 0, 1], [2, 0, 1],
      [1, 2, 0], [2, 2, 0], [2, 1, 0], [1, 1, 0],
      [1, 2, 2], [2, 2, 2], [2, 1, 2], [1, 1, 2],
      [1, 2, 1], [2, 2, 1], [2, 1, 1], [1, 1, 1] ]
  | .hexahedral, 4 =>
    [ [4, 0, 0], [4, 4, 0], [0, 4, 0], [0, 0, 0],
      [4, 0, 4], [4, 4, 4], [0, 4, 4], [0, 0, 4],
      [4, 1, 0], [4, 2, 0], [4, 3, 0], [3, 0, 0],
      [2, 0, 0], [1, 0, 0], [4, 0, 1], [4, 0, 2],
      [4, 0, 3], [3, 4, 0], [2, 4, 0], [1, 4, 0],
      [4, 4, 1], [4, 4, 2], [4, 4, 3], [0, 3, 0],
      [0, 2, 0], [0, 1, 0], [0, 4, 1], [0, 4, 2],
      [0, 4, 3], [0, 0, 1], [0, 0, 2], [0, 0, 3],
      [4, 1, 4], [4, 2, 4], [4, 3, 4], [3, 0, 4],
      [2, 0, 4], [1, 0, 4], [3, 4, 4], [2, 4, 4],
      [1, 4, 4], [0, 3, 4], [0, 2, 4], [0, 1, 4],
      [3, 1, 0], [1, 1, 0], [1, 3, 0], [3, 3, 0],
      [2, 1, 0], [1, 2, 0], [2, 3, 0], [3, 2, 0],
      [2, 2, 0], [4, 1, 1], [4, 3, 1], [4, 3, 3],
      [4, 1, 3], [4, 2, 1], [4, 3, 2], [4, 2, 3],
      [4, 1, 2], [4, 2, 2], [3, 0, 1], [3, 0, 3],
      [1, 0, 3], [1, 0, 1], [3, 0, 2], [2, 0, 3],
      [1, 0, 2], [2, 0, 1], [2, 0, 2], [3, 4, 1],
      [1, 4, 1], [1, 4, 3], [3, 4, 3], [2, 4, 1],
      [1, 4, 2], [2, 4, 3], [3, 4, 2], [2, 4, 2],
      [0, 3, 1], [0, 1, 1], [0, 1, 3], [0, 3, 3],
      [0, 2, 1], [0, 1, 2], [0, 2, 3], [0, 3, 2],
      [0, 2, 2], [3, 1, 4], [3, 3, 4], [1, 3, 4],
      [1, 1, 4], [3, 2, 4], [2, 3, 4], [1, 2, 4],
      [2, 1, 4], [2, 2, 4], [3, 1, 1], [3, 3, 1],
      [1, 3, 1], [1, 1, 1], [3, 1, 3], [3, 3, 3],
      [1, 3, 3], [1, 1, 3], [3, 2, 1], [2, 1, 1],
      [3, 1, 2], [2, 3, 1], [3, 3, 2], [1, 2, 1],
      [1, 3, 2], [1, 1, 2], [3, 2, 3], [2, 1, 3],
      [2, 3, 3], [1, 2, 3], [2, 2, 1], [3, 2, 2],
      [2, 1, 2], [2, 3, 2], [1, 2, 2], [2, 2, 3],
      [2, 2, 2] ]
  | _, _ => []

/-- `lexicographic_node_tuples` (reader.py:180-193, 317-330): the canonical
node order derived from the pytools enumerations. -/
def lexicographic_node_tuples (e : GmshElement) : List (List Nat) :=
  if isSimplex e then gnitstam e.order (dimensions e)
  else gnitb (e.order + 1) (dimensions e)

/-- Models the dictionary `gmsh_tup_to_index` built at reader.py:197-199 and
334-336: the index of the last occurrence of `t` (later `dict` entries
overwrite earlier ones), `none` modelling `KeyError`. -/
def dictIndex? (tups : List (List Nat)) (t : List Nat) : Option Nat :=
  (tups.foldl
    (fun (acc : Nat × Option Nat) tup =>
      (acc.1 + 1, if tup == t then some acc.1 else acc.2))
    (0, none)).2

/-- `get_lexicographic_gmsh_node_indices` (reader.py:195-203, 332-340): for
each canonical tuple, its position in the file (gmsh) order; `none` models
the `KeyError` raised when a canonical tuple is absent from the file-order
table. -/
def get_lexicographic_gmsh_node_indices (e : GmshElement) : Option (List Nat) :=
  (lexicographic_node_tuples e).mapM (dictIndex? (gmsh_node_tuples e))

/-- The fixed type catalog `gmsh_element_type_to_info_map` (reader.py:475-501). -/
def gmsh_element_type_to_info_map : List (Int × GmshElement) :=
  [ (1, ⟨.interval, 1⟩), (2, ⟨.triangular, 1⟩), (3, ⟨.quadrilateral, 1⟩),
    (4, ⟨.tetrahedral, 1⟩), (5, ⟨.hexahedral, 1⟩), (8, ⟨.interval, 2⟩),
    (9, ⟨.triangular, 2⟩), (10, ⟨.quadrilateral, 2⟩), (11, ⟨.tetrahedral, 2⟩),
    (12, ⟨.hexahedral, 2⟩), (15, ⟨.point, 0⟩), (20, ⟨.incompleteTriangular, 3⟩),
    (21, ⟨.triangular, 3⟩), (22, ⟨.incompleteTriangular, 4⟩),
    (23, ⟨.triangular, 4⟩), (24, ⟨.incompleteTriangular, 5⟩),
    (25, ⟨.triangular, 5⟩), (26, ⟨.interval, 3⟩), (27, ⟨.interval, 4⟩),
    (28, ⟨.interval, 5⟩), (29, ⟨.tetrahedral, 3⟩), (30, ⟨.tetrahedral, 4⟩),
    (31, ⟨.tetrahedral, 5⟩), (92, ⟨.hexahedral, 3⟩), (93, ⟨.hexahedral, 4⟩) ]

/-- The dictionary lookup `gmsh_element_type_to_info_map[el_type_num]`
(reader.py:749-750); `none` models the `KeyError` branch. -/
def lookupElementType (code : Int) : Option GmshElement :=
  (gmsh_element_type_to_info_map.find? (fun p => p.1 == code)).map (fun p => p.2)

/- ## Decidable checkers for the catalog invariants -/

/-- The catalog bijection invariant for one shape: file-order and canonical
tuple lists both have length `node_count`, and every canonical tuple occurs
exactly once in the file-order list. -/
def catalog_shape_ok (e : GmshElement) : Bool :=
  ((gmsh_node_tuples e).length == node_count e) &&
  ((lexicographic_node_tuples e).length == node_count e) &&
  (lexicographic_node_tuples e).all (fun t => (gmsh_node_tuples e).count t == 1)

/-- `catalog_shape_ok` read off through the type-code catalog. -/
def catalog_code_shape_ok (c : Int) : Bool :=
  match lookupElementType c with
  | some e => catalog_shape_ok e
  | none => false

/-- The reorder-permutation property for one shape: the permutation exists,
has length `node_count`, and indexing the file-order tuples through it
reproduces the canonical tuples element-wise. -/
def lex_perm_ok (e : GmshElement) : Bool :=
  match get_lexicographic_gmsh_node_indices e with
  | none => false
  | some p =>
    (p.length == node_count e) &&
    ((lexicographic_node_tuples e).length == node_count e) &&
    (List.range p.length).all (fun i =>
      (gmsh_node_tuples e).getD (p.getD i 0) [] ==
        (lexicographic_node_tuples e).getD i [])

/-- `lex_perm_ok` read off through the type-code catalog. -/
def lex_perm_code_ok (c : Int) : Bool :=
  match lookupElementType c with
  | some e => lex_perm_ok e
  | none => false

/-- The 22 catalog codes whose literal tables are complete (all catalog codes
except the incomplete-triangle codes 20, 22, 24). -/
def completeCatalogCodes : List Int :=
  [1, 2, 3, 4, 5, 8, 9, 10, 11, 12, 15, 21, 23, 25, 26, 27, 28, 29, 30, 31, 92, 93]

/- ## Receiver events and error conditions (reader.py:462-527, 597-598)

`Event` records the receiver calls made by the parser, in order.  `Err`
enumerates the ways a parse aborts: the `GmshFileFormatError` raises of
reader.py (one constructor per raise site) plus the uncaught Python
exceptions (`ValueError` from `int`/`float`/tuple unpacking, `KeyError`
from the node-tuple dictionary, `IndexError` from indexing an empty
string), which are *not* `GmshFileFormatError`s. -/

inductive Event : Type
  | set_up_nodes (count : Int)
  | add_node (node_nr : Int) (point : List Rat)
  | finalize_nodes
  | set_up_elements (count : Int)
  | add_element (element_nr : Int) (element_type : GmshElement)
      (vertex_nrs : List Int) (lexicographic_nodes : List Int)
      (tag_numbers : List Int)
  | finalize_elements
  | add_tag (name : String) (index : Int) (dimension : Int)
  | finalize_tags
  | warn (msg : String)
deriving DecidableEq, Repr

inductive Err : Type
  | malformedSectionHeader (line : String)
  | meshFormatTooManyLines
  | unsupportedFileType
  | nodesBadFieldCount
  | outOfOrderNodeIndex
  | countMismatchNodes
  | tooFewElementEntries
  | outOfOrderElementIndex
  | unknownElementType (code : Int)
  | badElementNodeCount
  | countMismatchElements
  | physicalNameQuotes
  | countMismatchPhysicalNames
  | unexpectedEndOfInput
  | pyValueError
  | pyKeyError
  | pyIndexError
  | outOfFuel
deriving DecidableEq, Repr

/-- Whether the error is one of the reader's own `GmshFileFormatError`
raises (as opposed to an uncaught Python exception, or the embedding's
fuel artifact which never occurs for the actual entry point). -/
def Err.isGmshFileFormatError : Err → Bool
  | .pyValueError => false
  | .pyKeyError => false
  | .pyIndexError => false
  | .outOfFuel => false
  | _ => true

/-- The spec's `MalformedSection` class: a body line that does not match the
section's expected field shape. -/
def Err.isMalformedSection : Err → Bool
  | .meshFormatTooManyLines => true
  | .nodesBadFieldCount => true
  | .tooFewElementEntries => true
  | .badElementNodeCount => true
  | .physicalNameQuotes => true
  | _ => false

abbrev Lines := List String

instance {ε α : Type} [DecidableEq ε] [DecidableEq α] : DecidableEq (Except ε α) :=
  fun a b =>
    match a, b with
    | .ok x, .ok y => decidable_of_iff (x = y) (by simp)
    | .error x, .error y => decidable_of_iff (x = y) (by simp)
    | .ok _, .error _ => isFalse (by simp)
    | .error _, .ok _ => isFalse (by simp)

/- ## Line source (reader.py:115-142) -/

/-- `LineFeeder.get_next_line`: the next stripped line, or the
`GmshFileFormatError("unexpected end of file")` raise when the underlying
iterator is exhausted (reader.py:131-142).  The section loops below inline
this function: their `[]` case is exactly its error case. -/
def getNextLine : Lines → Except Err (String × Lines)
  | [] => .error .unexpectedEndOfInput
  | l :: ls => .ok (pyStrip l, ls)

/- ## Per-line sub-parser steps

Each step takes one already-stripped body line; `.ok none` signals the
section-close marker, `.ok (some ev)` a parsed entity delivered to the
receiver. -/

/-- One iteration of the Nodes loop body (reader.py:698-721). -/
def node_line_step (force_dimension : Option Nat) (line : String)
    (node_idx : Int) : Except Err (Option Event) :=
  if line = "$EndNodes" then .ok none
  else
    let parts := pySplit line
    if parts.length ≠ 4 then .error .nodesBadFieldCount
    else
      match pyInt? (parts.getD 0 "") with
      | none => .error .pyValueError
      | some read_node_idx =>
        if read_node_idx ≠ node_idx then .error .outOfOrderNodeIndex
        else
          let coordStrs :=
            match force_dimension with
            | some fd => (parts.drop 1).take fd
            | none => parts.drop 1
          match coordStrs.mapM pyFloat? with
          | none => .error .pyValueError
          | some point => .ok (some (.add_node (node_idx - 1) point))

/-- The slice `parts[3:3+tag_count]` of an element line (reader.py:756). -/
def element_tags (parts : List Int) : List Int :=
  pySlice parts 3 (3 + parts.getD 2 0)

/-- The retained tag list `[tag for tag in tags[:1] if tag != 0]`
(reader.py:769). -/
def element_tag_numbers (parts : List Int) : List Int :=
  ((element_tags parts).take 1).filter (fun tag => tag != 0)

/-- One iteration of the Elements loop body (reader.py:733-777). -/
def element_line_step (line : String) (element_idx : Int) :
    Except Err (Option Event) :=
  if line = "$EndElements" then .ok none
  else
    match (pySplit line).mapM pyInt? with
    | none => .error .pyValueError
    | some parts =>
      if parts.length < 4 then .error .tooFewElementEntries
      else
        if parts.getD 0 0 ≠ element_idx then .error .outOfOrderElementIndex
        else
          let el_type_num := parts.getD 1 0
          match lookupElementType el_type_num with
          | none => .error (.unknownElementType el_type_num)
          | some element_type =>
            let tag_count := parts.getD 2 0
            let node_indices := (pySliceFrom parts (3 + tag_count)).map (fun x => x - 1)
            if (node_count element_type : Int) ≠ node_indices.length then
              .error .badElementNodeCount
            else
              let gmsh_vertex_nrs := node_indices.take (vertex_count element_type)
              match get_lexicographic_gmsh_node_indices element_type with
              | none => .error .pyKeyError
              | some perm =>
                .ok (some (.add_element (element_idx - 1) element_type
                  gmsh_vertex_nrs
                  (perm.map (fun i => node_indices.getD i 0))
                  (element_tag_numbers parts)))

/-- One iteration of the PhysicalNames loop body (reader.py:788-802). -/
def physical_name_line_step (line : String) : Except Err (Option Event) :=
  if line = "$EndPhysicalNames" then .ok none
  else
    match pySplitSpace2 line with
    | [dimensionStr, numberStr, name] =>
      match pyInt? dimensionStr, pyInt? numberStr with
      | some dimension, some number =>
        match name.toList with
        | [] => .error .pyIndexError
        | c :: cs =>
          if c = '"' ∧ (c :: cs).getLast (List.cons_ne_nil c cs) = '"' then
            .ok (some (.add_tag (String.mk ((c :: cs).drop 1).dropLast)
              number dimension))
          else .error .physicalNameQuotes
      | _, _ => .error .pyValueError
    | _ => .error .pyValueError

/- ## Section loops (each consumes lines until its close marker) -/

/-- The MeshFormat section loop (reader.py:667-690), carrying `line_count`. -/
def meshFormatLoop : Lines → Nat → List Event × Except Err Lines
  | [], _ => ([], .error .unexpectedEndOfInput)
  | l :: ls, line_count =>
    let line := pyStrip l
    if line = "$EndMeshFormat" then ([], .ok ls)
    else
      if line_count = 0 then
        match pySplit line with
        | [version_number, file_type, _data_size] =>
          let warns :=
            if version_number ≠ "2.1" ∧ version_number ≠ "2.2" then
              [ Event.warn ("unexpected mesh version number " ++ version_number) ]
            else []
          if file_type ≠ "0" then (warns, .error .unsupportedFileType)
          else
            let res := meshFormatLoop ls (line_count + 1)
            (warns ++ res.1, res.2)
        | _ => ([], .error .pyValueError)
      else ([], .error .meshFormatTooManyLines)

/-- The Nodes section loop (reader.py:698-721), returning the final running
index together with the unconsumed lines. -/
def nodesLoop (force_dimension : Option Nat) :
    Lines → Int → List Event × Except Err (Int × Lines)
  | [], _ => ([], .error .unexpectedEndOfInput)
  | l :: ls, node_idx =>
    match node_line_step force_dimension (pyStrip l) node_idx with
    | .error e => ([], .error e)
    | .ok none => ([], .ok (node_idx, ls))
    | .ok (some ev) =>
      let res := nodesLoop force_dimension ls (node_idx + 1)
      (ev :: res.1, res.2)

/-- The Elements section loop (reader.py:733-777). -/
def elementsLoop : Lines → Int → List Event × Except Err (Int × Lines)
  | [], _ => ([], .error .unexpectedEndOfInput)
  | l :: ls, element_idx =>
    match element_line_step (pyStrip l) element_idx with
    | .error e => ([], .error e)
    | .ok none => ([], .ok (element_idx, ls))
    | .ok (some ev) =>
      let res := elementsLoop ls (element_idx + 1)
      (ev :: res.1, res.2)

/-- The PhysicalNames section loop (reader.py:788-802). -/
def physicalNamesLoop : Lines → Int → List Event × Except Err (Int × Lines)
  | [], _ => ([], .error .unexpectedEndOfInput)
  | l :: ls, name_idx =>
    match physical_name_line_step (pyStrip l) with
    | .error e => ([], .error e)
    | .ok none => ([], .ok (name_idx, ls))
    | .ok (some ev) =>
      let res := physicalNamesLoop ls (name_idx + 1)
      (ev :: res.1, res.2)

/-- The unrecognized-section skip loop (reader.py:813-816). -/
def skipLoop (sectionName : String) : Lines → Except Err Lines
  | [] => .error .unexpectedEndOfInput
  | l :: ls =>
    if pyStrip l = "$End" ++ sectionName then .ok ls
    else skipLoop sectionName ls

/- ## Section parsers -/

/-- The MeshFormat sub-parser (reader.py:667-690). -/
def parseMeshFormatSection (ls : Lines) : List Event × Except Err Lines :=
  meshFormatLoop ls 0

/-- The Nodes sub-parser (reader.py:692-726): count line, `set_up_nodes`,
the loop from running index 1, the count check and `finalize_nodes`. -/
def parseNodesSection (force_dimension : Option Nat) :
    Lines → List Event × Except Err Lines
  | [] => ([], .error .unexpectedEndOfInput)
  | l :: ls =>
    match pyInt? (pyStrip l) with
    | none => ([], .error .pyValueError)
    | some nodeCount =>
      let res := nodesLoop force_dimension ls 1
      match res.2 with
      | .error e => (Event.set_up_nodes nodeCount :: res.1, .error e)
      | .ok (node_idx, rest) =>
        if nodeCount + 1 ≠ node_idx then
          (Event.set_up_nodes nodeCount :: res.1, .error .countMismatchNodes)
        else
          (Event.set_up_nodes nodeCount :: res.1 ++ [Event.finalize_nodes], .ok rest)

/-- The Elements sub-parser (reader.py:728-782). -/
def parseElementsSection : Lines → List Event × Except Err Lines
  | [] => ([], .error .unexpectedEndOfInput)
  | l :: ls =>
    match pyInt? (pyStrip l) with
    | none => ([], .error .pyValueError)
    | some elementCount =>
      let res := elementsLoop ls 1
      match res.2 with
      | .error e => (Event.set_up_elements elementCount :: res.1, .error e)
      | .ok (element_idx, rest) =>
        if elementCount + 1 ≠ element_idx then
          (Event.set_up_elements elementCount :: res.1, .error .countMismatchElements)
        else
          (Event.set_up_elements elementCount :: res.1 ++ [Event.finalize_elements],
            .ok rest)

/-- The PhysicalNames sub-parser (reader.py:784-808); the code makes no
set-up call for this section. -/
def parsePhysicalNamesSection : Lines → List Event × Except Err Lines
  | [] => ([], .error .unexpectedEndOfInput)
  | l :: ls =>
    match pyInt? (pyStrip l) with
    | none => ([], .error .pyValueError)
    | some nameCount =>
      let res := physicalNamesLoop ls 1
      match res.2 with
      | .error e => (res.1, .error e)
      | .ok (name_idx, rest) =>
        if nameCount + 1 ≠ name_idx then
          (res.1, .error .countMismatchPhysicalNames)
        else
          (res.1 ++ [Event.finalize_tags], .ok rest)

/-- Dispatch on the section name (reader.py:667, 692, 728, 784, 809-816);
an unrecognized section warns and is skipped. -/
def parse_section_body (force_dimension : Option Nat) (sectionName : String)
    (ls : Lines) : List Event × Except Err Lines :=
  if sectionName = "MeshFormat" then parseMeshFormatSection ls
  else if sectionName = "Nodes" then parseNodesSection force_dimension ls
  else if sectionName = "Elements" then parseElementsSection ls
  else if sectionName = "PhysicalNames" then parsePhysicalNamesSection ls
  else
    ([ Event.warn ("unrecognized section " ++ sectionName) ],
      skipLoop sectionName ls)

/-- The top-level section loop of `parse_gmsh` (reader.py:659-816).  The
fuel argument only bounds the number of sections; `parse_gmsh` supplies
`lines.length`, which always suffices since every section consumes at least
its header line, so `.outOfFuel` is unreachable from the entry point. -/
def parse_gmsh_loop (force_dimension : Option Nat) :
    Nat → Lines → List Event × Option Err
  | _, [] => ([], none)
  | 0, _ :: _ => ([], some .outOfFuel)
  | fuel + 1, l :: ls =>
    let line := pyStrip l
    if pyStartsWithDollar line then
      let sectionName := pyStrDrop1 line
      match parse_section_body force_dimension sectionName ls with
      | (evts, .error e) => (evts, some e)
      | (evts, .ok rest) =>
        let res := parse_gmsh_loop force_dimension fuel rest
        (evts ++ res.1, res.2)
    else ([], some (.malformedSectionHeader line))

/-- The entry point `parse_gmsh(receiver, line_iterable, force_dimension)`
(reader.py:642-816): the ordered receiver-call trace and the fatal error,
if any. -/
def parse_gmsh (force_dimension : Option Nat) (lines : Lines) :
    List Event × Option Err :=
  parse_gmsh_loop force_dimension lines.length lines

/- ## Conforming-body checkers and event traces -/

/-- Whether a step outcome is a parsed entity (neither an error nor the
close marker). -/
def stepOkSome : Except Err (Option Event) → Bool
  | .ok (some _) => true
  | _ => false

/-- Every line of the body parses as a node entity under the running index
starting at `idx` (so none of them is the close marker). -/
def conformingNodeBody (force_dimension : Option Nat) : Lines → Int → Bool
  | [], _ => true
  | l :: ls, idx =>
    stepOkSome (node_line_step force_dimension (pyStrip l) idx) &&
      conformingNodeBody force_dimension ls (idx + 1)

/-- Every line of the body parses as an element entity under the running
index starting at `idx`. -/
def conformingElementBody : Lines → Int → Bool
  | [], _ => true
  | l :: ls, idx =>
    stepOkSome (element_line_step (pyStrip l) idx) &&
      conformingElementBody ls (idx + 1)

/-- The events a conforming node body delivers to the receiver. -/
def node_step_events (force_dimension : Option Nat) : Lines → Int → List Event
  | [], _ => []
  | l :: ls, idx =>
    match node_line_step force_dimension (pyStrip l) idx with
    | .ok (some ev) => ev :: node_step_events force_dimension ls (idx + 1)
    | _ => []

/-- The events a conforming element body delivers to the receiver. -/
def element_step_events : Lines → Int → List Event
  | [], _ => []
  | l :: ls, idx =>
    match element_line_step (pyStrip l) idx with
    | .ok (some ev) => ev :: element_step_events ls (idx + 1)
    | _ => []

/- ## Supporting lemmas about the loops -/

theorem stepOkSome_iff (r : Except Err (Option Event)) :
    stepOkSome r = true ↔ ∃ ev, r = .ok (some ev) := by
  cases r with
  | error e => simp [stepOkSome]
  | ok o => cases o <;> simp [stepOkSome]

/-- A successful node step always delivers an `add_node` event carrying the
zero-based running index. -/
theorem node_line_step_ok_shape (fd : Option Nat) (line : String) (idx : Int)
    (ev : Event) (h : node_line_step fd line idx = .ok (some ev)) :
    ∃ pt, ev = Event.add_node (idx - 1) pt := by
  simp only [node_line_step] at h
  split at h
  · simp at h
  · split at h
    · simp at h
    · split at h
      · simp at h
      · split at h
        · simp at h
        · split at h
          · simp at h
          · simp only [Except.ok.injEq, Option.some.injEq] at h
            exact ⟨_, h.symm⟩

/-- Running the Nodes loop over a conforming body followed by the close
marker: all entities are delivered, the marker is consumed, and the final
running index is the start index plus the body length. -/
theorem nodesLoop_eq_of_conforming (fd : Option Nat) (body : Lines) :
    ∀ (idx : Int) (m : String) (rest : Lines), pyStrip m = "$EndNodes" →
      conformingNodeBody fd body idx = true →
      nodesLoop fd (body ++ m :: rest) idx =
        (node_step_events fd body idx, .ok (idx + body.length, rest)) := by
  induction body with
  | nil =>
    intro idx m rest hm _
    simp [nodesLoop, node_line_step, hm, node_step_events]
  | cons l ls ih =>
    intro idx m rest hm hc
    simp only [conformingNodeBody, Bool.and_eq_true] at hc
    obtain ⟨h1, h2⟩ := hc
    obtain ⟨ev, hev⟩ := (stepOkSome_iff _).mp h1
    have hrec := ih (idx + 1) m rest hm h2
    simp only [List.cons_append, nodesLoop, hev, List.append_eq, hrec,
      node_step_events, List.length_cons, Prod.mk.injEq, Except.ok.injEq,
      true_and, and_true]
    omega

/-- Running the Elements loop over a conforming body followed by the close
marker. -/
theorem elementsLoop_eq_of_conforming (body : Lines) :
    ∀ (idx : Int) (m : String) (rest : Lines), pyStrip m = "$EndElements" →
      conformingElementBody body idx = true →
      elementsLoop (body ++ m :: rest) idx =
        (element_step_events body idx, .ok (idx + body.length, rest)) := by
  induction body with
  | nil =>
    intro idx m rest hm _
    simp [elementsLoop, element_line_step, hm, element_step_events]
  | cons l ls ih =>
    intro idx m rest hm hc
    simp only [conformingElementBody, Bool.and_eq_true] at hc
    obtain ⟨h1, h2⟩ := hc
    obtain ⟨ev, hev⟩ := (stepOkSome_iff _).mp h1
    have hrec := ih (idx + 1) m rest hm h2
    simp only [List.cons_append, elementsLoop, hev, List.append_eq, hrec,
      element_step_events, List.length_cons, Prod.mk.injEq, Except.ok.injEq,
      true_and, and_true]
    omega

theorem node_step_events_length (fd : Option Nat) (body : Lines) :
    ∀ idx : Int, conformingNodeBody fd body idx = true →
      (node_step_events fd body idx).length = body.length := by
  induction body with
  | nil => intro idx _; rfl
  | cons l ls ih =>
    intro idx hc
    simp only [conformingNodeBody, Bool.and_eq_true] at hc
    obtain ⟨h1, h2⟩ := hc
    obtain ⟨ev, hev⟩ := (stepOkSome_iff _).mp h1
    simp [node_step_events, hev, ih (idx + 1) h2]

/-- In a conforming node body starting at running index `idx`, the `j`-th
delivered event is an `add_node` with zero-based index `idx + j - 1`. -/
theorem node_step_events_get? (fd : Option Nat) (body : Lines) :
    ∀ (idx : Int) (j : Nat), conformingNodeBody fd body idx = true →
      j < body.length →
      ∃ pt, (node_step_events fd body idx).get? j =
        some (Event.add_node (idx + j - 1) pt) := by
  induction body with
  | nil => intro idx j _ hj; exact absurd hj (by simp)
  | cons l ls ih =>
    intro idx j hc hj
    simp only [conformingNodeBody, Bool.and_eq_true] at hc
    obtain ⟨h1, h2⟩ := hc
    obtain ⟨ev, hev⟩ := (stepOkSome_iff _).mp h1
    obtain ⟨pt0, hpt0⟩ := node_line_step_ok_shape fd (pyStrip l) idx ev hev
    have hunfold : node_step_events fd (l :: ls) idx =
        ev :: node_step_events fd ls (idx + 1) := by
      simp [node_step_events, hev]
    cases j with
    | zero =>
      refine ⟨pt0, ?_⟩
      rw [hunfold]
      simp [hpt0]
    | succ j =>
      obtain ⟨pt, hpt⟩ := ih (idx + 1) j h2 (by simpa using hj)
      refine ⟨pt, ?_⟩
      rw [hunfold, List.get?_cons_succ, hpt]
      congr 2
      push_cast
      ring

/-- Every event a node body delivers is an `add_node`. -/
theorem node_step_events_mem (fd : Option Nat) (body : Lines) :
    ∀ (idx : Int) (ev : Event), ev ∈ node_step_events fd body idx →
      ∃ i pt, ev = Event.add_node i pt := by
  induction body with
  | nil => intro idx ev h; exact absurd h (by simp [node_step_events])
  | cons l ls ih =>
    intro idx ev h
    cases hstep : node_line_step fd (pyStrip l) idx with
    | error e => rw [node_step_events, hstep] at h; exact absurd h (by simp)
    | ok o =>
      cases o with
      | none => rw [node_step_events, hstep] at h; exact absurd h (by simp)
      | some ev0 =>
        rw [node_step_events, hstep] at h
        rcases List.mem_cons.mp h with h0 | hmem
        · obtain ⟨pt, hpt⟩ := node_line_step_ok_shape fd (pyStrip l) idx ev0 hstep
          exact ⟨idx - 1, pt, h0.trans hpt⟩
        · exact ih (idx + 1) ev hmem

/-- The slice `parts[i:j]` for in-range non-negative bounds is plain
take-then-drop. -/
theorem pySlice_nonneg (xs : List Int) (i j : Nat) (hij : i ≤ j)
    (hj : j ≤ xs.length) :
    pySlice xs (i : Int) (j : Int) = (xs.take j).drop i := by
  simp only [pySlice]
  rw [if_neg (by omega), if_neg (by omega)]
  rw [min_eq_left (by exact_mod_cast le_trans hij hj), min_eq_left (by exact_mod_cast hj)]
  simp

/-- The tag slice of an element line whose third field announces the length
of the tag block is exactly that block. -/
theorem element_tags_eq (a b : Int) (ts rest : List Int) :
    element_tags (a :: b :: (ts.length : Int) :: (ts ++ rest)) = ts := by
  have hgd : (a :: b :: (ts.length : Int) :: (ts ++ rest)).getD 2 0 = (ts.length : Int) := rfl
  rw [element_tags, hgd]
  rw [show (3 : Int) + (ts.length : Int) = ((3 + ts.length : Nat) : Int) by push_cast; ring,
    show (3 : Int) = ((3 : Nat) : Int) from rfl]
  rw [pySlice_nonneg _ 3 (3 + ts.length) (by omega) (by simp [List.length_append]; omega)]
  show (List.take (3 + ts.length) ([a, b, (ts.length : Int)] ++ (ts ++ rest))).drop 3 = ts
  rw [show (3 : Nat) + ts.length =
      ([a, b, (ts.length : Int)] : List Int).length + ts.length from rfl]
  rw [List.take_append]
  show List.drop ([a, b, (ts.length : Int)] : List Int).length
    ([a, b, (ts.length : Int)] ++ (ts ++ rest).take ts.length) = ts
  rw [List.drop_left]
  exact List.take_left ts rest

/- ## The claims -/

/-- Claim C1 (code_bug evidence).  The catalog bijection invariant — equal
lengths of `gmsh_node_tuples` and the canonical tuple list, both equal to
`node_count`, with every canonical tuple occurring exactly once in file
order — holds for the 22 complete catalog codes but fails for the
incomplete-triangle codes 20, 22, 24: for code 20 the file-order table has
9 tuples while `node_count` and the canonical list have 10 (the interior
tuple (1,1) is missing entirely). -/
theorem claim1_catalog_bijection :
    (completeCatalogCodes.all fun c => catalog_code_shape_ok c) = true ∧
    lookupElementType 20 = some ⟨.incompleteTriangular, 3⟩ ∧
    lookupElementType 22 = some ⟨.incompleteTriangular, 4⟩ ∧
    lookupElementType 24 = some ⟨.incompleteTriangular, 5⟩ ∧
    (gmsh_node_tuples ⟨.incompleteTriangular, 3⟩).length = 9 ∧
    node_count ⟨.incompleteTriangular, 3⟩ = 10 ∧
    (lexicographic_node_tuples ⟨.incompleteTriangular, 3⟩).length = 10 ∧
    (gmsh_node_tuples ⟨.incompleteTriangular, 3⟩).count [1, 1] = 0 ∧
    catalog_code_shape_ok 20 = false ∧
    catalog_code_shape_ok 22 = false ∧
    catalog_code_shape_ok 24 = false := by
  decide

/-- Claim C2 (code_bug evidence).  For the 22 complete catalog codes the
reorder permutation exists and indexing the file-order tuples through it
reproduces the canonical tuples element-wise; for the incomplete-triangle
codes 20, 22, 24 the permutation computation fails outright (the `KeyError`
modelled by `none`), so no permutation is produced at all. -/
theorem claim2_reorder_permutation :
    (completeCatalogCodes.all fun c => lex_perm_code_ok c) = true ∧
    lookupElementType 20 = some ⟨.incompleteTriangular, 3⟩ ∧
    get_lexicographic_gmsh_node_indices ⟨.incompleteTriangular, 3⟩ = none ∧
    get_lexicographic_gmsh_node_indices ⟨.incompleteTriangular, 4⟩ = none ∧
    get_lexicographic_gmsh_node_indices ⟨.incompleteTriangular, 5⟩ = none := by
  decide

/-- Claim C3 (counterexample).  A MeshFormat body line with two fields
aborts with the uncaught Python `ValueError` from tuple unpacking, which is
not a `GmshFileFormatError` at all, hence not the documented
`MalformedSection` error. -/
theorem claim3_counterexample :
    meshFormatLoop ["2.2 0", "$EndMeshFormat"] 0 = ([], .error .pyValueError) ∧
    Err.isMalformedSection .pyValueError = false ∧
    Err.isGmshFileFormatError .pyValueError = false := by
  decide

/-- Claim C3 (amended).  A Nodes body line without exactly four fields and
an all-integer Elements body line with fewer than four fields do fail with
`MalformedSection` errors; but a MeshFormat body line without exactly three
fields, a four-field Nodes line with a matching index and non-numeric
coordinate fields, and an Elements line with a non-integer field all abort
with an uncaught `ValueError` outside the documented taxonomy. -/
theorem claim3_malformed_lines :
    ((∀ (fd : Option Nat) (line : String) (c : Int),
        line ≠ "$EndNodes" → (pySplit line).length ≠ 4 →
        node_line_step fd line c = .error .nodesBadFieldCount) ∧
      Err.isMalformedSection .nodesBadFieldCount = true) ∧
    ((∀ (line : String) (c : Int) (parts : List Int),
        line ≠ "$EndElements" → (pySplit line).mapM pyInt? = some parts →
        parts.length < 4 →
        element_line_step line c = .error .tooFewElementEntries) ∧
      Err.isMalformedSection .tooFewElementEntries = true) ∧
    (∀ (l : String) (ls : Lines),
      pyStrip l ≠ "$EndMeshFormat" → (pySplit (pyStrip l)).length ≠ 3 →
      meshFormatLoop (l :: ls) 0 = ([], .error .pyValueError)) ∧
    (∀ (line : String) (c : Int),
      line ≠ "$EndNodes" → (pySplit line).length = 4 →
      pyInt? ((pySplit line).getD 0 "") = some c →
      ((pySplit line).drop 1).mapM pyFloat? = none →
      node_line_step none line c = .error .pyValueError) ∧
    (∀ (line : String) (c : Int),
      line ≠ "$EndElements" → (pySplit line).mapM pyInt? = none →
      element_line_step line c = .error .pyValueError) := by
  refine ⟨⟨?_, rfl⟩, ⟨?_, rfl⟩, ?_, ?_, ?_⟩
  · intro fd line c hline hlen
    rw [node_line_step, if_neg hline, if_pos hlen]
  · intro line c parts hline hparts hlen
    rw [element_line_step, if_neg hline]
    simp only [hparts]
    rw [if_pos hlen]
  · intro l ls hline hlen
    rw [meshFormatLoop, if_neg hline, if_pos rfl]
    rcases hps : pySplit (pyStrip l) with _ | ⟨a, _ | ⟨b, _ | ⟨c, _ | ⟨d, tl⟩⟩⟩⟩
    · rfl
    · rfl
    · rfl
    · exact absurd (by rw [hps]; rfl) hlen
    · rfl
  · intro line c hline hlen hidx hfl
    rw [node_line_step, if_neg hline,
      if_neg (show ¬ (pySplit line).length ≠ 4 by omega)]
    simp only [hidx]
    rw [if_neg (show ¬ (c ≠ c) by simp)]
    simp only [hfl]
  · intro line c hline hparts
    rw [element_line_step, if_neg hline]
    simp only [hparts]

/-- Claim C3 (witness for the amended statement). -/
theorem claim3_witness :
    node_line_step none "1 2" 1 = .error .nodesBadFieldCount ∧
    element_line_step "1 1 0" 1 = .error .tooFewElementEntries ∧
    meshFormatLoop ["2.2 0"] 0 = ([], .error .pyValueError) ∧
    node_line_step none "1 a b c" 1 = .error .pyValueError ∧
    element_line_step "1 x 0 1" 1 = .error .pyValueError := by
  refine ⟨?_, ?_, ?_, ?_, ?_⟩
  · exact claim3_malformed_lines.1.1 none "1 2" 1 (by decide) (by decide)
  · exact claim3_malformed_lines.2.1.1 "1 1 0" 1 [1, 1, 0] (by decide) (by decide) (by decide)
  · exact claim3_malformed_lines.2.2.1 "2.2 0" [] (by decide) (by decide)
  · exact claim3_malformed_lines.2.2.2.1 "1 a b c" 1 (by decide) (by decide) (by decide) (by decide)
  · exact claim3_malformed_lines.2.2.2.2 "1 x 0 1" 1 (by decide) (by decide)

/-- Claim C4 (counterexample).  A MeshFormat section with zero body lines —
a body-line count different from exactly one — parses successfully: the
whole file is accepted with no error. -/
theorem claim4_counterexample :
    parse_gmsh none ["$MeshFormat", "$EndMeshFormat"] = ([], none) := by
  decide

/-- Claim C4 (amended).  After a well-formed ASCII first body line, a second
body line before the close marker fails with the `MalformedSection` error
("more than one line found in MeshFormat section"); but a MeshFormat section
with zero body lines parses successfully, so a body-line count different
from one is not always rejected. -/
theorem claim4_mesh_format_single_line :
    (∀ (l1 l2 : String) (ls : Lines) (v ds : String),
      pyStrip l1 ≠ "$EndMeshFormat" →
      pySplit (pyStrip l1) = [v, "0", ds] →
      pyStrip l2 ≠ "$EndMeshFormat" →
      (meshFormatLoop (l1 :: l2 :: ls) 0).2 = .error .meshFormatTooManyLines) ∧
    Err.isMalformedSection .meshFormatTooManyLines = true ∧
    (∀ fd : Option Nat, parse_gmsh fd ["$MeshFormat", "$EndMeshFormat"] = ([], none)) := by
  refine ⟨?_, rfl, fun fd => rfl⟩
  intro l1 l2 ls v ds h1 hsplit h2
  rw [meshFormatLoop, if_neg h1, if_pos rfl, hsplit]
  simp only [if_neg (by simp : ¬("0" : String) ≠ "0")]
  rw [meshFormatLoop, if_neg h2]
  simp

/-- Claim C4 (witness for the amended statement). -/
theorem claim4_witness :
    (meshFormatLoop ["2.2 0 8", "2.2 0 8", "$EndMeshFormat"] 0).2 =
      .error .meshFormatTooManyLines ∧
    parse_gmsh none ["$MeshFormat", "$EndMeshFormat"] = ([], none) := by
  refine ⟨?_, claim4_mesh_format_single_line.2.2 none⟩
  exact claim4_mesh_format_single_line.1 "2.2 0 8" "2.2 0 8" ["$EndMeshFormat"]
    "2.2" "8" (by decide) (by decide) (by decide)

/-- Claim C5.  For a parsed element line `idx ty T t0 .. t(T-1) nodes..`,
the retained tag list handed to the receiver is `[t0]` when `T ≥ 1` and
`t0 ≠ 0`, and the empty list otherwise: all tags after the first are
dropped, and a first tag equal to zero is dropped as if absent. -/
theorem claim5_retained_tags (idx ty : Int) (T : Nat) (ts rest : List Int)
    (h : ts.length = T) :
    (ts = [] → element_tag_numbers (idx :: ty :: (T : Int) :: (ts ++ rest)) = []) ∧
    (∀ t0 ts2, ts = t0 :: ts2 →
      element_tag_numbers (idx :: ty :: (T : Int) :: (ts ++ rest)) =
        if t0 ≠ 0 then [t0] else []) := by
  subst h
  have htags := element_tags_eq idx ty ts rest
  constructor
  · intro hts
    rw [element_tag_numbers, htags, hts]
    rfl
  · intro t0 ts2 hts
    rw [element_tag_numbers, htags, hts]
    by_cases h0 : t0 = 0
    · subst h0
      simp
    · simp [h0]

/-- Claim C5 (witness). -/
theorem claim5_witness :
    element_tag_numbers [1, 1, 1, 7, 5, 6] = [7] ∧
    element_tag_numbers [1, 1, 1, 0, 5, 6] = [] ∧
    element_tag_numbers [1, 1, 0, 5, 6] = [] := by
  refine ⟨?_, ?_, ?_⟩
  · have h := (claim5_retained_tags 1 1 1 [7] [5, 6] rfl).2 7 [] rfl
    simpa using h
  · have h := (claim5_retained_tags 1 1 1 [0] [5, 6] rfl).2 0 [] rfl
    simpa using h
  · have h := (claim5_retained_tags 1 1 0 [] [5, 6] rfl).1 rfl
    simpa using h

/-- A node line whose parsed leading index equals the running counter never
produces the out-of-order error. -/
theorem node_line_step_matched_not_outoforder (fd : Option Nat) (line : String)
    (c : Int) (hline : line ≠ "$EndNodes") (hlen : (pySplit line).length = 4)
    (hk : pyInt? ((pySplit line).getD 0 "") = some c) :
    node_line_step fd line c ≠ .error .outOfOrderNodeIndex := by
  intro h
  rw [node_line_step, if_neg hline,
    if_neg (show ¬ (pySplit line).length ≠ 4 by omega)] at h
  simp only [hk] at h
  rw [if_neg (show ¬ (c ≠ c) by simp)] at h
  cases fd with
  | none =>
    cases hfl : List.mapM pyFloat? (List.drop 1 (pySplit line)) with
    | none => simp only [hfl] at h; exact absurd h (by simp)
    | some point => simp only [hfl] at h; exact absurd h (by simp)
  | some fdv =>
    cases hfl : List.mapM pyFloat? (List.take fdv (List.drop 1 (pySplit line))) with
    | none => simp only [hfl] at h; exact absurd h (by simp)
    | some point => simp only [hfl] at h; exact absurd h (by simp)

/-- An element line whose parsed leading index equals the running counter
never produces the out-of-order error. -/
theorem element_line_step_matched_not_outoforder (line : String) (c : Int)
    (parts : List Int) (hline : line ≠ "$EndElements")
    (hparts : List.mapM pyInt? (pySplit line) = some parts)
    (hlen : 4 ≤ parts.length) (hkc : parts.getD 0 0 = c) :
    element_line_step line c ≠ .error .outOfOrderElementIndex := by
  intro h
  rw [element_line_step, if_neg hline] at h
  simp only [hparts] at h
  rw [if_neg (Nat.not_lt.mpr hlen)] at h
  rw [if_neg (not_ne_iff.mpr hkc)] at h
  cases hlk : lookupElementType (parts.getD 1 0) with
  | none => simp only [hlk] at h; exact absurd h (by simp)
  | some et =>
    simp only [hlk] at h
    by_cases hnc : ((node_count et : Nat) : Int) =
        (((pySliceFrom parts (3 + parts.getD 2 0)).map (fun x => x - 1)).length : Int)
    · rw [if_neg (show ¬ _ ≠ _ by simp [hnc])] at h
      cases hgl : get_lexicographic_gmsh_node_indices et with
      | none => simp only [hgl] at h; exact absurd h (by simp)
      | some perm => simp only [hgl] at h; exact absurd h (by simp)
    · rw [if_pos hnc] at h
      exact absurd h (by simp)

/-- Claim C6.  In the Nodes and Elements sections, a body line whose leading
1-based index parses fails with `OutOfOrderIndex` exactly when that index
differs from the running counter (which the section parsers start at 1 and
the loops increment by 1 per body line); a line whose index matches never
produces this error. -/
theorem claim6_out_of_order :
    (∀ (fd : Option Nat) (line : String) (c k : Int),
      line ≠ "$EndNodes" → (pySplit line).length = 4 →
      pyInt? ((pySplit line).getD 0 "") = some k →
      (node_line_step fd line c = .error .outOfOrderNodeIndex ↔ k ≠ c)) ∧
    (∀ (line : String) (c : Int) (parts : List Int),
      line ≠ "$EndElements" → (pySplit line).mapM pyInt? = some parts →
      4 ≤ parts.length →
      (element_line_step line c = .error .outOfOrderElementIndex ↔
        parts.getD 0 0 ≠ c)) := by
  constructor
  · intro fd line c k hline hlen hk
    constructor
    · intro h
      intro hkc
      subst hkc
      exact node_line_step_matched_not_outoforder fd line k hline hlen hk h
    · intro hkc
      rw [node_line_step, if_neg hline,
        if_neg (show ¬ (pySplit line).length ≠ 4 by omega)]
      simp only [hk]
      rw [if_pos hkc]
  · intro line c parts hline hparts hlen
    constructor
    · intro h
      intro hkc
      exact element_line_step_matched_not_outoforder line c parts hline hparts hlen hkc h
    · intro hkc
      rw [element_line_step, if_neg hline]
      simp only [hparts]
      rw [if_neg (Nat.not_lt.mpr hlen), if_pos hkc]

/-- Claim C6 (witness). -/
theorem claim6_witness :
    node_line_step none "2 0 0 0" 1 = .error .outOfOrderNodeIndex ∧
    element_line_step "2 1 0 1 2" 1 = .error .outOfOrderElementIndex := by
  constructor
  · exact (claim6_out_of_order.1 none "2 0 0 0" 1 2 (by decide) (by decide)
      (by decide)).mpr (by decide)
  · exact (claim6_out_of_order.2 "2 1 0 1 2" 1 [2, 1, 0, 1, 2] (by decide)
      (by decide) (by decide)).mpr (by decide)

/-- Claim C7.  For the Nodes and Elements sections, over a conforming body
followed by the consumed close marker, the parse fails with the
`CountMismatch` error exactly when the number of body lines differs from
the count declared on the section's first line. -/
theorem claim7_count_mismatch :
    (∀ (fd : Option Nat) (cl : String) (N : Int) (body : Lines) (m : String)
      (rest : Lines),
      pyInt? (pyStrip cl) = some N → pyStrip m = "$EndNodes" →
      conformingNodeBody fd body 1 = true →
      ((parseNodesSection fd (cl :: (body ++ m :: rest))).2 =
          .error .countMismatchNodes ↔ (body.length : Int) ≠ N)) ∧
    (∀ (cl : String) (M : Int) (body : Lines) (m : String) (rest : Lines),
      pyInt? (pyStrip cl) = some M → pyStrip m = "$EndElements" →
      conformingElementBody body 1 = true →
      ((parseElementsSection (cl :: (body ++ m :: rest))).2 =
          .error .countMismatchElements ↔ (body.length : Int) ≠ M)) := by
  constructor
  · intro fd cl N body m rest hcl hm hb
    have hloop := nodesLoop_eq_of_conforming fd body 1 m rest hm hb
    rw [parseNodesSection, hcl]
    simp only [hloop]
    by_cases hN : (body.length : Int) = N
    · rw [if_neg (by omega)]
      simp [hN]
    · rw [if_pos (by omega)]
      simp [hN]
  · intro cl M body m rest hcl hm hb
    have hloop := elementsLoop_eq_of_conforming body 1 m rest hm hb
    rw [parseElementsSection, hcl]
    simp only [hloop]
    by_cases hM : (body.length : Int) = M
    · rw [if_neg (by omega)]
      simp [hM]
    · rw [if_pos (by omega)]
      simp [hM]

/-- Claim C7 (witness): a Nodes section declaring 3 but supplying 2 lines
fails with `CountMismatch`; with the count matching it does not. -/
theorem claim7_witness :
    (parseNodesSection none ("3" :: (["1 0 0 0", "2 0 0 0"] ++ "$EndNodes" :: []))).2 =
      .error .countMismatchNodes ∧
    ¬ (parseElementsSection ("1" :: (["1 15 0 1"] ++ "$EndElements" :: []))).2 =
      .error .countMismatchElements := by
  constructor
  · exact (claim7_count_mismatch.1 none "3" 3 ["1 0 0 0", "2 0 0 0"] "$EndNodes" []
      (by decide) (by decide) (by decide)).mpr (by decide)
  · intro hcontra
    exact absurd ((claim7_count_mismatch.2 "1" 1 ["1 15 0 1"] "$EndElements" []
      (by decide) (by decide) (by decide)).mp hcontra) (by decide)

/-- Claim C8.  In a PhysicalNames entry whose first two space-separated
fields parse as integers, the name field must begin and end with a literal
double quote — the step fails with the `MalformedSection` quote error
otherwise — and with the quotes present they are stripped and the name is
delivered to the receiver together with the id and the dimension. -/
theorem claim8_physical_names (line dimStr numStr name : String) (d n : Int)
    (hline : line ≠ "$EndPhysicalNames")
    (hsplit : pySplitSpace2 line = [dimStr, numStr, name])
    (hd : pyInt? dimStr = some d) (hn : pyInt? numStr = some n)
    (hne : name.toList ≠ []) :
    (physical_name_line_step line = .error .physicalNameQuotes ↔
      ¬ (name.toList.head? = some '"' ∧ name.toList.getLast? = some '"')) ∧
    (name.toList.head? = some '"' → name.toList.getLast? = some '"' →
      physical_name_line_step line =
        .ok (some (.add_tag (String.mk (name.toList.drop 1).dropLast) n d))) ∧
    Err.isMalformedSection .physicalNameQuotes = true := by
  obtain ⟨c, cs, hcl⟩ := List.exists_cons_of_ne_nil hne
  have hstep : physical_name_line_step line =
      if c = '"' ∧ (c :: cs).getLast (List.cons_ne_nil c cs) = '"' then
        .ok (some (.add_tag (String.mk ((c :: cs).drop 1).dropLast) n d))
      else .error .physicalNameQuotes := by
    rw [physical_name_line_step, if_neg hline, hsplit]
    simp only [hd, hn, hcl]
  have hhead : name.toList.head? = some c := by rw [hcl]; rfl
  have hlast : name.toList.getLast? =
      some ((c :: cs).getLast (List.cons_ne_nil c cs)) := by
    rw [hcl]
    exact List.getLast?_eq_getLast_of_ne_nil (List.cons_ne_nil c cs)
  refine ⟨?_, ?_, rfl⟩
  · rw [hstep, hhead, hlast]
    by_cases hq : c = '"' ∧ (c :: cs).getLast (List.cons_ne_nil c cs) = '"'
    · rw [if_pos hq]
      obtain ⟨hq1, hq2⟩ := hq
      subst hq1
      simp [hq2]
    · rw [if_neg hq]
      simp only [Option.some.injEq]
      exact ⟨fun _ => hq, fun _ => trivial⟩
  · intro hh hl
    rw [hhead] at hh
    rw [hlast] at hl
    have hq : c = '"' ∧ (c :: cs).getLast (List.cons_ne_nil c cs) = '"' :=
      ⟨by simpa using hh, by simpa using hl⟩
    rw [hstep, if_pos hq, hcl]

/-- Claim C8 (witness). -/
theorem claim8_witness :
    physical_name_line_step "2 1 \"Surface\"" = .ok (some (.add_tag "Surface" 1 2)) ∧
    physical_name_line_step "2 1 Surface" = .error .physicalNameQuotes := by
  constructor
  · have h := (claim8_physical_names "2 1 \"Surface\"" "2" "1" "\"Surface\"" 2 1
      (by decide) (by decide) (by decide) (by decide) (by decide)).2.1
      (by decide) (by decide)
    exact h.trans (by decide)
  · exact (claim8_physical_names "2 1 Surface" "2" "1" "Surface" 2 1
      (by decide) (by decide) (by decide) (by decide) (by decide)).1.mpr (by decide)

/-- Claim C9.  The line source fails with `UnexpectedEndOfInput` when asked
for a line with no data remaining; every section loop inherits exactly that
failure when its input is exhausted before its close marker (the unknown
section skip loop does so whenever no remaining line matches its marker);
and a sub-parser error becomes the result of the whole parse. -/
theorem claim9_unexpected_eof :
    getNextLine [] = .error .unexpectedEndOfInput ∧
    (∀ lc : Nat, meshFormatLoop [] lc = ([], .error .unexpectedEndOfInput)) ∧
    (∀ (fd : Option Nat) (i : Int), nodesLoop fd [] i = ([], .error .unexpectedEndOfInput)) ∧
    (∀ i : Int, elementsLoop [] i = ([], .error .unexpectedEndOfInput)) ∧
    (∀ i : Int, physicalNamesLoop [] i = ([], .error .unexpectedEndOfInput)) ∧
    (∀ name : String, skipLoop name [] = .error .unexpectedEndOfInput) ∧
    (∀ (name : String) (ls : Lines),
      (∀ l ∈ ls, pyStrip l ≠ "$End" ++ name) →
      skipLoop name ls = .error .unexpectedEndOfInput) ∧
    (∀ (fd : Option Nat) (l : String) (ls : Lines) (evts : List Event) (e : Err),
      pyStartsWithDollar (pyStrip l) = true →
      parse_section_body fd (pyStrDrop1 (pyStrip l)) ls = (evts, .error e) →
      parse_gmsh fd (l :: ls) = (evts, some e)) := by
    refine ⟨rfl, fun lc => rfl, fun fd i => rfl, fun i => rfl, fun i => rfl,
      fun name => rfl, ?_, ?_⟩
    · intro name ls hno
      induction ls with
      | nil => rfl
      | cons l ls ih =>
        rw [skipLoop, if_neg (hno l (by simp))]
        exact ih (fun x hx => hno x (by simp [hx]))
    · intro fd l ls evts e hstart hbody
      rw [parse_gmsh, List.length_cons, parse_gmsh_loop]
      simp only [if_pos hstart, hbody]

/-- Claim C9 (witness). -/
theorem claim9_witness :
    skipLoop "Foo" ["bar", "baz"] = .error .unexpectedEndOfInput ∧
    parse_gmsh none ["$Nodes"] = ([], some .unexpectedEndOfInput) := by
  constructor
  · exact claim9_unexpected_eof.2.2.2.2.2.2.1 "Foo" ["bar", "baz"] (by decide)
  · exact claim9_unexpected_eof.2.2.2.2.2.2.2 none "$Nodes" [] [] .unexpectedEndOfInput
      (by decide) (by decide)

/-- Claim C10.  A Nodes section whose conforming, sequentially indexed body
is longer than the declared count N delivers every body line to the
receiver via `add_node` — the j-th event carrying zero-based index j, so
the surplus lines get indices N, N+1, ... beyond the announced count —
before the close marker triggers `CountMismatch`; `finalize_nodes` is never
delivered.  The declared count is checked only at the close marker, never
per line. -/
theorem claim10_surplus_nodes (fd : Option Nat) (cl : String) (N : Int)
    (body : Lines) (m : String) (rest : Lines)
    (hcl : pyInt? (pyStrip cl) = some N) (hm : pyStrip m = "$EndNodes")
    (hb : conformingNodeBody fd body 1 = true)
    (hgt : N < (body.length : Int)) :
    parseNodesSection fd (cl :: (body ++ m :: rest)) =
      (Event.set_up_nodes N :: node_step_events fd body 1,
        .error .countMismatchNodes) ∧
    (node_step_events fd body 1).length = body.length ∧
    (∀ j : Nat, j < body.length → ∃ pt,
      (node_step_events fd body 1).get? j = some (Event.add_node j pt)) ∧
    Event.finalize_nodes ∉ (parseNodesSection fd (cl :: (body ++ m :: rest))).1 := by
  have hloop := nodesLoop_eq_of_conforming fd body 1 m rest hm hb
  have hmain : parseNodesSection fd (cl :: (body ++ m :: rest)) =
      (Event.set_up_nodes N :: node_step_events fd body 1,
        .error .countMismatchNodes) := by
    rw [parseNodesSection, hcl]
    simp only [hloop]
    rw [if_pos (by omega)]
  refine ⟨hmain, node_step_events_length fd body 1 hb, ?_, ?_⟩
  · intro j hj
    obtain ⟨pt, hpt⟩ := node_step_events_get? fd body 1 j hb hj
    have hidx : (1 : Int) + j - 1 = j := by omega
    rw [hidx] at hpt
    exact ⟨pt, hpt⟩
  · rw [hmain]
    intro hmem
    rcases List.mem_cons.mp hmem with h0 | hmem2
    · exact absurd h0 (by simp)
    · obtain ⟨i, pt, hpt⟩ := node_step_events_mem fd body 1 Event.finalize_nodes hmem2
      exact absurd hpt (by simp)

/-- Claim C10 (witness): count 2 declared, 3 conforming lines supplied. -/
theorem claim10_witness :
    (parseNodesSection none ("2" :: (["1 0 0 0", "2 0 0 0", "3 5 6 7"] ++
      "$EndNodes" :: []))).2 = .error .countMismatchNodes ∧
    (∃ pt, (node_step_events none ["1 0 0 0", "2 0 0 0", "3 5 6 7"] 1).get? 2 =
      some (Event.add_node 2 pt)) ∧
    Event.finalize_nodes ∉ (parseNodesSection none ("2" :: (["1 0 0 0", "2 0 0 0",
      "3 5 6 7"] ++ "$EndNodes" :: []))).1 := by
  have h := claim10_surplus_nodes none "2" 2 ["1 0 0 0", "2 0 0 0", "3 5 6 7"]
    "$EndNodes" [] (by decide) (by decide) (by decide) (by decide)
  exact ⟨by rw [h.1], h.2.2.1 2 (by decide), h.2.2.2⟩

end GmshInterop
